import Mathlib

/-!
# BirdWar grid / weapon core — shallow embedding and verification

This file embeds the algorithmic core of the BirdWar repository in Lean 4 and
proves (or refutes) the frozen specification claims about it.

Embedded source files:
* `EventManagerExample.ts` — class `GridManager`: the 2D cell lattice,
  coordinate transforms, occupancy/type mutation, neighbor queries and the
  `findPath` search (including its JavaScript `|| Infinity` falsiness
  semantics, which is behaviorally significant).
* `core/WeaponsSystem.ts` — energy pool, cooldown gating and firing.
* `core/WeaponType.ts` — the static weapon configuration catalog.
* `core/Bullet.ts` — per-projectile hit bookkeeping and the destruction
  decision.

JavaScript `number` values are modelled as `ℚ` (all arithmetic appearing in
the embedded code paths is exact decimal arithmetic, so `ℚ` is faithful);
scores inside `findPath` are modelled as `WithTop ℚ` so that the JavaScript
`Infinity` produced by `x || Infinity` on a missing (or zero!) map entry is
represented by `⊤`.  Engine `Node` handles are opaque and modelled as `ℕ`.
-/

namespace BirdWar

/-- `Vec3` from the engine: only the numeric components matter to the core. -/
structure Vec3 where
  x : ℚ
  y : ℚ
  z : ℚ
deriving DecidableEq, Repr

/-- `GridCoordinate` interface: zero-based `(row, col)` integer pair. -/
structure GridCoordinate where
  row : ℤ
  col : ℤ
deriving DecidableEq, Repr

/-- `GridCellType` enum from `EventManagerExample.ts`. -/
inductive GridCellType where
  | EMPTY
  | PLANT_ZONE
  | PATH
  | SPAWN
  | GOAL
  | OBSTACLE
  | SPECIAL
deriving DecidableEq, Repr

/-- `GridCell` interface.  `occupant` is an opaque engine node handle
(modelled as `ℕ`); the `localPosition` and `data` fields of the source are
rendering/extension data never read by the embedded operations and are
omitted. -/
structure GridCell where
  coordinate : GridCoordinate
  worldPosition : Vec3
  occupied : Bool
  occupant : Option ℕ
  cellType : GridCellType
  walkable : Bool
  buildable : Bool
deriving DecidableEq, Repr

/-- The `GridManager` component state: configuration fields plus the owned
cell lattice `_grid`.  Display-only fields (`showGrid`, colors, debug flags,
visual nodes) are omitted: no embedded operation reads them. -/
structure GridManager where
  rows : ℤ
  cols : ℤ
  cellWidth : ℚ
  cellHeight : ℚ
  startPosition : Vec3
  grid : List (List GridCell)
deriving DecidableEq, Repr

/-- `GridManager.gridToWorldPosition`:
`x = startX + col*cellWidth + cellWidth/2`,
`y = startY - row*cellHeight - cellHeight/2`, `z = startZ`. -/
def gridToWorldPosition (g : GridManager) (row col : ℤ) : Vec3 :=
  { x := g.startPosition.x + col * g.cellWidth + g.cellWidth / 2
    y := g.startPosition.y - row * g.cellHeight - g.cellHeight / 2
    z := g.startPosition.z }

/-- `GridManager.isValidCoordinate`. -/
def isValidCoordinate (g : GridManager) (row col : ℤ) : Bool :=
  decide (0 ≤ row) && decide (row < g.rows) && decide (0 ≤ col) && decide (col < g.cols)

/-- `GridManager.worldToGridPosition`: floor-divide the offsets from the
start position, then bounds-check. -/
def worldToGridPosition (g : GridManager) (worldPos : Vec3) : Option GridCoordinate :=
  let relativeX := worldPos.x - g.startPosition.x
  let relativeY := g.startPosition.y - worldPos.y
  let col := ⌊relativeX / g.cellWidth⌋
  let row := ⌊relativeY / g.cellHeight⌋
  if isValidCoordinate g row col then some { row := row, col := col } else none

/-- `GridManager.determineCellType`: default PVZ-style layout — rightmost
column `SPAWN`, leftmost `GOAL`, interior `PLANT_ZONE`, otherwise `EMPTY`. -/
def determineCellType (g : GridManager) (_row col : ℤ) : GridCellType :=
  if col = g.cols - 1 then GridCellType.SPAWN
  else if col = 0 then GridCellType.GOAL
  else if 1 ≤ col ∧ col ≤ g.cols - 2 then GridCellType.PLANT_ZONE
  else GridCellType.EMPTY

/-- `GridManager.configureCellByType`: derive `walkable`/`buildable` from
`cellType` (the `default` branch covers `EMPTY` and `SPECIAL`). -/
def configureCellByType (cell : GridCell) : GridCell :=
  match cell.cellType with
  | GridCellType.SPAWN => { cell with walkable := true, buildable := false }
  | GridCellType.GOAL => { cell with walkable := true, buildable := false }
  | GridCellType.PLANT_ZONE => { cell with walkable := false, buildable := true }
  | GridCellType.PATH => { cell with walkable := true, buildable := false }
  | GridCellType.OBSTACLE => { cell with walkable := false, buildable := false }
  | _ => { cell with walkable := true, buildable := true }

/-- `GridManager.createGridCell` (the source also computes a `localPosition`
through the rendering container; that value is never read by the core and is
omitted from `GridCell`). -/
def createGridCell (g : GridManager) (row col : ℤ) : GridCell :=
  configureCellByType
    { coordinate := { row := row, col := col }
      worldPosition := gridToWorldPosition g row col
      occupied := false
      occupant := none
      cellType := determineCellType g row col
      walkable := true
      buildable := true }

/-- `GridManager.initializeGrid`: rebuild `_grid` as a `rows × cols` lattice
of freshly created cells (the `for` loops run zero times when a dimension is
not positive). -/
def initializeGrid (g : GridManager) : GridManager :=
  { g with grid :=
      (List.range g.rows.toNat).map fun row =>
        (List.range g.cols.toNat).map fun col =>
          createGridCell g (Int.ofNat row) (Int.ofNat col) }

/-- `GridManager.getCell`: bounds-check, then index `_grid[row][col]`. -/
def getCell (g : GridManager) (row col : ℤ) : Option GridCell :=
  if isValidCoordinate g row col then
    (g.grid.get? row.toNat).bind fun rowList => rowList.get? col.toNat
  else none

/-- In-place mutation of the cell object `_grid[row][col]`, rendered as a
functional update of the lattice. -/
def setCellInGrid (g : GridManager) (row col : ℤ) (cell : GridCell) : GridManager :=
  { g with grid :=
      match g.grid.get? row.toNat with
      | none => g.grid
      | some rowList => g.grid.set row.toNat (rowList.set col.toNat cell) }

/-- `GridManager.setCellOccupied`: returns the source's boolean result
together with the updated manager state.  A non-null occupant is rejected on
an occupied or non-buildable cell; a null occupant clears occupancy. -/
def setCellOccupied (g : GridManager) (row col : ℤ) (occupant : Option ℕ) :
    Bool × GridManager :=
  match getCell g row col with
  | none => (false, g)
  | some cell =>
    if occupant.isSome && cell.occupied then (false, g)
    else if occupant.isSome && !cell.buildable then (false, g)
    else
      (true, setCellInGrid g row col
        { cell with occupied := occupant.isSome, occupant := occupant })

/-- `GridManager.clearCell`. -/
def clearCell (g : GridManager) (row col : ℤ) : Bool × GridManager :=
  setCellOccupied g row col none

/-- `GridManager.canPlaceAt`: `cell && !cell.occupied && cell.buildable`. -/
def canPlaceAt (g : GridManager) (row col : ℤ) : Bool :=
  match getCell g row col with
  | none => false
  | some cell => !cell.occupied && cell.buildable

/-- `GridManager.canWalkAt`: `cell && cell.walkable && !cell.occupied`. -/
def canWalkAt (g : GridManager) (row col : ℤ) : Bool :=
  match getCell g row col with
  | none => false
  | some cell => cell.walkable && !cell.occupied

/-- `GridManager.setCellType`: overwrite `cellType`, then re-derive the
`walkable`/`buildable` flags with `configureCellByType`. -/
def setCellType (g : GridManager) (row col : ℤ) (cellType : GridCellType) :
    Bool × GridManager :=
  match getCell g row col with
  | none => (false, g)
  | some cell =>
    (true, setCellInGrid g row col (configureCellByType { cell with cellType := cellType }))

/-- `GridManager.getCellsByType`: row-major scan. -/
def getCellsByType (g : GridManager) (cellType : GridCellType) : List GridCell :=
  g.grid.flatten.filter fun cell => cell.cellType = cellType

/-- The fixed direction lists of `GridManager.getNeighborCells`: the
8-direction list enumerates offsets in row-major order, so diagonal and
orthogonal offsets are interleaved. -/
def neighborDirections (includeDiagonal : Bool) : List (ℤ × ℤ) :=
  if includeDiagonal then
    [(-1, -1), (-1, 0), (-1, 1), (0, -1), (0, 1), (1, -1), (1, 0), (1, 1)]
  else
    [(-1, 0), (0, -1), (0, 1), (1, 0)]

/-- `GridManager.getNeighborCells`: collect the in-bounds cells at the fixed
direction offsets, in list order. -/
def getNeighborCells (g : GridManager) (row col : ℤ) (includeDiagonal : Bool) :
    List GridCell :=
  (neighborDirections includeDiagonal).filterMap fun d =>
    getCell g (row + d.1) (col + d.2)

/-- Partial `GridConfig` argument of `GridManager.reconfigureGrid`
(display-only fields omitted; absent fields leave the old value). -/
structure GridConfigPatch where
  rows : Option ℤ := none
  cols : Option ℤ := none
  cellWidth : Option ℚ := none
  cellHeight : Option ℚ := none
  startPosition : Option Vec3 := none
deriving DecidableEq, Repr

/-- `GridManager.reconfigureGrid`: copy every provided field onto the
manager — with no validation whatsoever — then rebuild the lattice. -/
def reconfigureGrid (g : GridManager) (config : GridConfigPatch) : GridManager :=
  let g :=
    { g with
      rows := config.rows.getD g.rows
      cols := config.cols.getD g.cols
      cellWidth := config.cellWidth.getD g.cellWidth
      cellHeight := config.cellHeight.getD g.cellHeight
      startPosition := config.startPosition.getD g.startPosition }
  initializeGrid g

/-! ## `findPath` — the A*-shaped search, with JavaScript semantics

The source stores g-scores and f-scores in `Map<string, number>` objects and
reads them back as `map.get(key) || Infinity`.  In JavaScript `0` is falsy,
so a *present* score of `0` also reads back as `Infinity`; the score domain
is therefore modelled as `WithTop ℚ` with `⊤` standing for `Infinity`, and
`jsOrInfinity` reproduces the `|| Infinity` read. -/

/-- JS score values: a rational or `Infinity`. -/
abbrev Score := WithTop ℚ

/-- Association-list model of the `Map<string, number>` /
`Map<string, GridCoordinate>` objects keyed by `"row,col"` (that key is in
bijection with the coordinate, so coordinates are used as keys directly).
`Map.set` prepends; `Map.get` takes the most recent binding. -/
def mapGet {α : Type} (m : List (GridCoordinate × α)) (k : GridCoordinate) : Option α :=
  match m with
  | [] => none
  | (k', v) :: rest => if k' = k then some v else mapGet rest k

/-- `Map.set` (observationally: latest binding wins under `mapGet`). -/
def mapSet {α : Type} (m : List (GridCoordinate × α)) (k : GridCoordinate) (v : α) :
    List (GridCoordinate × α) :=
  (k, v) :: m

/-- `map.get(key) || Infinity`: missing entries *and zero entries* read as
`Infinity` (JavaScript falsiness of `0`). -/
def jsOrInfinity (o : Option Score) : Score :=
  match o with
  | none => ⊤
  | some v => if v = 0 then ⊤ else v

/-- The Manhattan-distance heuristic of `findPath`. -/
def heuristic (a b : GridCoordinate) : ℕ :=
  (a.row - b.row).natAbs + (a.col - b.col).natAbs

/-- The mutable loop state of `findPath`. -/
structure SearchState where
  openSet : List GridCoordinate
  cameFrom : List (GridCoordinate × GridCoordinate)
  gScore : List (GridCoordinate × Score)
  fScore : List (GridCoordinate × Score)

/-- The `for` scan that picks the open node with the smallest
`fScore.get(...) || Infinity` (first occurrence wins on ties), returning the
node and its index. -/
def selectCurrent (fScore : List (GridCoordinate × Score))
    (first : GridCoordinate) (rest : List GridCoordinate) : GridCoordinate × ℕ :=
  rest.enum.foldl
    (fun acc p =>
      if jsOrInfinity (mapGet fScore p.2) < jsOrInfinity (mapGet fScore acc.1) then
        (p.2, p.1 + 1)
      else acc)
    (first, 0)

/-- The path-reconstruction loop
`while (temp) { path.unshift(temp); temp = cameFrom.get(...) }`.
A coordinate object is always truthy, so the loop runs until the lookup
misses; the fuel (one more than the map size at the call site) dominates the
chain length of any run that terminates. -/
def reconstructPath (fuel : ℕ) (cameFrom : List (GridCoordinate × GridCoordinate))
    (temp : GridCoordinate) (path : List GridCoordinate) : List GridCoordinate :=
  match fuel with
  | 0 => temp :: path
  | fuel + 1 =>
    match mapGet cameFrom temp with
    | none => temp :: path
    | some t => reconstructPath fuel cameFrom t (temp :: path)

/-- The neighbor-relaxation `for` loop of one `findPath` iteration: skip
non-walkable cells, compute
`tentativeGScore = (gScore.get(current) || Infinity) + 1`, and on improvement
update the maps and push the neighbor if it is not already open. -/
def relaxNeighbors (goal current : GridCoordinate) (neighbors : List GridCell)
    (st : SearchState) : SearchState :=
  neighbors.foldl
    (fun st neighborCell =>
      if !neighborCell.walkable then st
      else
        let neighbor := neighborCell.coordinate
        let tentativeGScore := jsOrInfinity (mapGet st.gScore current) + 1
        if tentativeGScore < jsOrInfinity (mapGet st.gScore neighbor) then
          { openSet :=
              if st.openSet.any fun c => c.row == neighbor.row && c.col == neighbor.col then
                st.openSet
              else st.openSet ++ [neighbor]
            cameFrom := mapSet st.cameFrom neighbor current
            gScore := mapSet st.gScore neighbor tentativeGScore
            fScore := mapSet st.fScore neighbor (tentativeGScore + (heuristic neighbor goal : ℚ)) }
        else st)
    st

/-- The `while (openSet.length > 0)` loop of `findPath`, with fuel.  The
caller supplies more fuel than any terminating run consumes, so the fuel
never alters the result (`findPath_characterization` below pins down every
run exactly). -/
def astarLoop (g : GridManager) (goal : GridCoordinate) :
    ℕ → SearchState → Option (List GridCoordinate)
  | 0, _ => none
  | fuel + 1, st =>
    match st.openSet with
    | [] => none
    | first :: rest =>
      let sel := selectCurrent st.fScore first rest
      let current := sel.1
      if current = goal then
        some (reconstructPath (st.cameFrom.length + 1) st.cameFrom current [])
      else
        let st' :=
          relaxNeighbors goal current (getNeighborCells g current.row current.col false)
            { st with openSet := st.openSet.eraseIdx sel.2 }
        astarLoop g goal fuel st'

/-- `GridManager.findPath`: bounds-check both endpoints, seed the open set
with `start` (`gScore = 0`, `fScore = heuristic`), and run the loop. -/
def findPath (g : GridManager) (start goal : GridCoordinate) :
    Option (List GridCoordinate) :=
  if !isValidCoordinate g start.row start.col || !isValidCoordinate g goal.row goal.col then
    none
  else
    astarLoop g goal (g.rows.toNat * g.cols.toNat * (g.rows.toNat * g.cols.toNat) + 2)
      { openSet := [start]
        cameFrom := []
        gScore := [(start, (0 : Score))]
        fScore := [(start, ((heuristic start goal : ℚ) : Score))] }

/-! ## Weapon catalog (`core/WeaponType.ts`) -/

/-- `WeaponType` enum (numeric values 0..3). -/
inductive WeaponType where
  | BULLET_TYPE_NORMAL
  | BULLET_TYPE_CANNON
  | BULLET_TYPE_MULTIPLE
  | BULLET_TYPE_LASER
deriving DecidableEq, Repr

/-- The numeric value of a `WeaponType` (it indexes `bulletPrefabs`). -/
def WeaponType.toIndex : WeaponType → ℕ
  | .BULLET_TYPE_NORMAL => 0
  | .BULLET_TYPE_CANNON => 1
  | .BULLET_TYPE_MULTIPLE => 2
  | .BULLET_TYPE_LASER => 3

/-- `WeaponConfig` interface. -/
structure WeaponConfig where
  type : WeaponType
  name : String
  damage : ℚ
  fireRate : ℚ
  bulletSpeed : ℚ
  bulletLifetime : ℚ
  range : ℚ
  bulletCount : ℕ
  spreadAngle : ℚ
  penetration : ℤ
  explosionRadius : ℚ
  energyCost : ℚ
  cooldown : ℚ
deriving DecidableEq, Repr

/-- `DEFAULT_WEAPON_CONFIGS` from `core/WeaponType.ts`. -/
def DEFAULT_WEAPON_CONFIGS : WeaponType → WeaponConfig
  | .BULLET_TYPE_NORMAL =>
    { type := .BULLET_TYPE_NORMAL, name := "普通子弹", damage := 10, fireRate := 2
      bulletSpeed := 500, bulletLifetime := 3, range := 400, bulletCount := 1
      spreadAngle := 0, penetration := 0, explosionRadius := 0, energyCost := 1, cooldown := 0 }
  | .BULLET_TYPE_CANNON =>
    { type := .BULLET_TYPE_CANNON, name := "加农炮", damage := 50, fireRate := 1/2
      bulletSpeed := 300, bulletLifetime := 4, range := 600, bulletCount := 1
      spreadAngle := 0, penetration := 2, explosionRadius := 80, energyCost := 5, cooldown := 1 }
  | .BULLET_TYPE_MULTIPLE =>
    { type := .BULLET_TYPE_MULTIPLE, name := "多重射击", damage := 8, fireRate := 3
      bulletSpeed := 450, bulletLifetime := 5/2, range := 350, bulletCount := 3
      spreadAngle := 30, penetration := 0, explosionRadius := 0, energyCost := 3, cooldown := 1/5 }
  | .BULLET_TYPE_LASER =>
    { type := .BULLET_TYPE_LASER, name := "激光", damage := 25, fireRate := 5
      bulletSpeed := 1000, bulletLifetime := 3/2, range := 800, bulletCount := 1
      spreadAngle := 0, penetration := 5, explosionRadius := 0, energyCost := 2, cooldown := 0 }

/-! ## Weapon controller (`core/WeaponsSystem.ts`)

Only the simulation state is modelled: the projectile pools hold engine scene
nodes and their kinematic sweep (`updateBullets`) never reads or writes the
energy/cooldown fields, so pools and in-flight bullets are outside this
state.  `_weaponConfigs` is the `Map` populated by `loadWeaponConfigs`. -/

/-- The `WeaponsSystem` component state. -/
structure WeaponsSystem where
  currentWeaponType : WeaponType
  bulletPrefabs : List Bool
  autoFire : Bool
  currentEnergy : ℚ
  maxEnergy : ℚ
  energyRegenRate : ℚ
  weaponConfigs : List (WeaponType × WeaponConfig)
  lastFireTime : ℚ
  cooldownEndTime : ℚ
deriving DecidableEq, Repr

/-- Lookup in the `_weaponConfigs` map. -/
def configsGet (m : List (WeaponType × WeaponConfig)) (k : WeaponType) :
    Option WeaponConfig :=
  match m with
  | [] => none
  | (k', v) :: rest => if k' = k then some v else configsGet rest k

/-- `loadWeaponConfigs`: copy every default config into the map. -/
def loadWeaponConfigs : List (WeaponType × WeaponConfig) :=
  [(.BULLET_TYPE_NORMAL, DEFAULT_WEAPON_CONFIGS .BULLET_TYPE_NORMAL),
   (.BULLET_TYPE_CANNON, DEFAULT_WEAPON_CONFIGS .BULLET_TYPE_CANNON),
   (.BULLET_TYPE_MULTIPLE, DEFAULT_WEAPON_CONFIGS .BULLET_TYPE_MULTIPLE),
   (.BULLET_TYPE_LASER, DEFAULT_WEAPON_CONFIGS .BULLET_TYPE_LASER)]

/-- `getCurrentWeaponConfig`: map lookup with fallback to the Normal
default (`|| DEFAULT_WEAPON_CONFIGS[NORMAL]`). -/
def getCurrentWeaponConfig (s : WeaponsSystem) : WeaponConfig :=
  (configsGet s.weaponConfigs s.currentWeaponType).getD
    (DEFAULT_WEAPON_CONFIGS .BULLET_TYPE_NORMAL)

/-- `!this.bulletPrefabs[weaponType]`: array indexing by the numeric enum
value; a missing slot is falsy. -/
def hasPrefab (s : WeaponsSystem) (t : WeaponType) : Bool :=
  (s.bulletPrefabs.get? t.toIndex).getD false

/-- `WeaponsSystem.canFire` at clock value `now`
(`director.getTotalTime() / 1000` in the source). -/
def canFire (s : WeaponsSystem) (now : ℚ) : Bool :=
  let config := getCurrentWeaponConfig s
  if now < s.cooldownEndTime then false
  else if now - s.lastFireTime < 1 / config.fireRate then false
  else if s.currentEnergy < config.energyCost then false
  else hasPrefab s s.currentWeaponType

/-- `WeaponsSystem.fire`: gate on `canFire`, deduct `energyCost`, stamp the
cooldown and fire timestamps, then dispatch projectiles
(`executeFirePattern` mutates only pooled scene nodes, not this state). -/
def fire (s : WeaponsSystem) (now : ℚ) : Bool × WeaponsSystem :=
  if !canFire s now then (false, s)
  else
    let config := getCurrentWeaponConfig s
    (true,
      { s with
        currentEnergy := s.currentEnergy - config.energyCost
        cooldownEndTime := now + config.cooldown
        lastFireTime := now })

/-- `WeaponsSystem.updateEnergyRegen`: regenerate, clamped at `maxEnergy`,
only while below the maximum. -/
def updateEnergyRegen (s : WeaponsSystem) (deltaTime : ℚ) : WeaponsSystem :=
  if s.currentEnergy < s.maxEnergy then
    { s with currentEnergy := min s.maxEnergy (s.currentEnergy + s.energyRegenRate * deltaTime) }
  else s

/-- `WeaponsSystem.update`: regen, bullet sweep (state-irrelevant here),
then auto-fire. -/
def update (s : WeaponsSystem) (deltaTime now : ℚ) : WeaponsSystem :=
  let s := updateEnergyRegen s deltaTime
  if s.autoFire && canFire s now then (fire s now).2 else s

/-- One externally driven call on the weapon controller. -/
inductive WeaponOp where
  | update (deltaTime now : ℚ)
  | fire (now : ℚ)

/-- Dispatch one externally driven call. -/
def stepWeaponOp (s : WeaponsSystem) (op : WeaponOp) : WeaponsSystem :=
  match op with
  | .update deltaTime now => update s deltaTime now
  | .fire now => (fire s now).2

/-- Run a finite call sequence. -/
def runWeaponOps (s : WeaponsSystem) (ops : List WeaponOp) : WeaponsSystem :=
  ops.foldl stepWeaponOp s

/-! ## Projectile (`core/Bullet.ts`) -/

/-- A collision candidate: an opaque node identity plus the tag that
`getNodeTag` resolves for it. -/
structure Target where
  id : ℕ
  tag : String
deriving DecidableEq, Repr

/-- The `Bullet` component state (sprite/resource fields omitted: they never
feed back into the hit logic). -/
structure Bullet where
  damage : ℚ
  speed : ℚ
  lifetime : ℚ
  ownerTag : String
  targetTags : List String
  penetration : ℤ
  explosionRadius : ℚ
  isLaser : Bool
  weaponType : WeaponType
  hasHit : Bool
  hitCount : ℕ
  hitTargets : List ℕ
  active : Bool
deriving DecidableEq, Repr

/-- `Bullet.isValidTarget`: reject the owner's tag, then require membership
in `targetTags` unless that list is empty. -/
def isValidTarget (b : Bullet) (targetTag : String) : Bool :=
  if targetTag = b.ownerTag then false
  else b.targetTags.contains targetTag || decide (b.targetTags = [])

/-- `Bullet.shouldDestroyAfterHit`. -/
def shouldDestroyAfterHit (b : Bullet) : Bool :=
  if b.isLaser && decide (0 < b.penetration) then decide ((b.hitCount : ℤ) ≥ b.penetration)
  else if b.penetration ≤ 0 then true
  else decide ((b.hitCount : ℤ) ≥ b.penetration)

/-- `Bullet.hitTarget`: record the hit, apply damage (an outbound event),
then either destroy (deactivate, i.e. recycle to the pool) or mark
`_hasHit`. -/
def hitTarget (b : Bullet) (target : Target) : Bullet :=
  let b := { b with hitTargets := target.id :: b.hitTargets, hitCount := b.hitCount + 1 }
  if shouldDestroyAfterHit b then { b with active := false }
  else { b with hasHit := true }

/-- `Bullet.onBeginContact`: early-out for spent non-penetrating bullets and
already-hit targets, then tag-validate and hit. -/
def onBeginContact (b : Bullet) (target : Target) : Bullet :=
  if b.hasHit && b.penetration ≤ 0 then b
  else if b.hitTargets.contains target.id then b
  else if isValidTarget b target.tag then hitTarget b target
  else b

/-! ## Helper lemmas -/

/-- Flooring the center offset of slot `z` recovers `z` (positive pitch). -/
lemma floor_center_div {q : ℚ} (z : ℤ) (hq : 0 < q) :
    ⌊((z : ℚ) * q + q / 2) / q⌋ = z := by
  have hq' : q ≠ 0 := ne_of_gt hq
  have h : ((z : ℚ) * q + q / 2) / q = (z : ℚ) + 1 / 2 := by
    field_simp
    ring
  rw [h, Int.floor_int_add]
  norm_num

/-- Unfolded meaning of the `isValidCoordinate` bounds check. -/
lemma isValidCoordinate_iff (g : GridManager) (row col : ℤ) :
    isValidCoordinate g row col = true ↔
      0 ≤ row ∧ row < g.rows ∧ 0 ≤ col ∧ col < g.cols := by
  simp [isValidCoordinate, and_assoc]

/-- The editor-default grid configuration of `GridManager`
(5×9, 100×100 cells, start `(-400, 200, 0)`), initialized by `onLoad`. -/
def defaultGrid : GridManager :=
  initializeGrid
    { rows := 5, cols := 9, cellWidth := 100, cellHeight := 100
      startPosition := { x := -400, y := 200, z := 0 }, grid := [] }

/-- A small 2×3 instance of the same layout, used for concrete witnesses. -/
def demoGrid23 : GridManager :=
  initializeGrid
    { rows := 2, cols := 3, cellWidth := 100, cellHeight := 100
      startPosition := { x := -400, y := 200, z := 0 }, grid := [] }

/-- A 1×2 instance: its two cells are `GOAL` and `SPAWN`, both walkable. -/
def demoGrid12 : GridManager :=
  initializeGrid
    { rows := 1, cols := 2, cellWidth := 100, cellHeight := 100
      startPosition := { x := -400, y := 200, z := 0 }, grid := [] }

/-- A 3×3 instance, used for neighbor-order witnesses. -/
def demoGrid33 : GridManager :=
  initializeGrid
    { rows := 3, cols := 3, cellWidth := 100, cellHeight := 100
      startPosition := { x := -400, y := 200, z := 0 }, grid := [] }

/-- C2: for every valid coordinate of a grid with positive cell dimensions,
`worldToGridPosition` inverts `gridToWorldPosition` exactly:
`worldToGridPosition (gridToWorldPosition row col) = some (row, col)`. -/
theorem claim_C2_coordinate_roundtrip (g : GridManager) (row col : ℤ)
    (hvalid : isValidCoordinate g row col = true)
    (hW : 0 < g.cellWidth) (hH : 0 < g.cellHeight) :
    worldToGridPosition g (gridToWorldPosition g row col) =
      some { row := row, col := col } := by
  have hx : ⌊(g.startPosition.x + (col : ℚ) * g.cellWidth + g.cellWidth / 2 -
      g.startPosition.x) / g.cellWidth⌋ = col := by
    have h : g.startPosition.x + (col : ℚ) * g.cellWidth + g.cellWidth / 2 -
        g.startPosition.x = (col : ℚ) * g.cellWidth + g.cellWidth / 2 := by ring
    rw [h]
    exact floor_center_div col hW
  have hy : ⌊(g.startPosition.y - (g.startPosition.y - (row : ℚ) * g.cellHeight -
      g.cellHeight / 2)) / g.cellHeight⌋ = row := by
    have h : g.startPosition.y - (g.startPosition.y - (row : ℚ) * g.cellHeight -
        g.cellHeight / 2) = (row : ℚ) * g.cellHeight + g.cellHeight / 2 := by ring
    rw [h]
    exact floor_center_div row hH
  simp only [worldToGridPosition, gridToWorldPosition, hx, hy, hvalid, if_true]

/-- Witness for C2 at the default 5×9 grid and coordinate `(2, 3)`. -/
theorem claim_C2_coordinate_roundtrip_witness :
    isValidCoordinate defaultGrid 2 3 = true ∧
      (0 : ℚ) < defaultGrid.cellWidth ∧ (0 : ℚ) < defaultGrid.cellHeight ∧
      worldToGridPosition defaultGrid (gridToWorldPosition defaultGrid 2 3) =
        some { row := 2, col := 3 } :=
  ⟨by decide, by decide, by decide,
    claim_C2_coordinate_roundtrip defaultGrid 2 3 (by decide) (by decide) (by decide)⟩

/-! ### Exact characterization of `findPath`

Because the source reads scores back as `gScore.get(key) || Infinity`, and the
g-score of the start node is `0` (falsy in JavaScript), the tentative g-score
of every neighbor of the start node is `Infinity + 1 = Infinity`, which never
improves on anything.  The open set therefore never grows beyond the start
node and the search degenerates completely; the lemmas below pin this down
for every grid and every pair of endpoints. -/

/-- Relaxation from a node whose stored g-score is `0` changes nothing. -/
lemma relaxNeighbors_gScore_zero (goal current : GridCoordinate)
    (neighbors : List GridCell) (st : SearchState)
    (h : mapGet st.gScore current = some 0) :
    relaxNeighbors goal current neighbors st = st := by
  induction neighbors with
  | nil => rfl
  | cons cell cells ih =>
    have hstep :
        (if !cell.walkable then st
         else
           let neighbor := cell.coordinate
           let tentativeGScore := jsOrInfinity (mapGet st.gScore current) + 1
           if tentativeGScore < jsOrInfinity (mapGet st.gScore neighbor) then
             { openSet :=
                 if st.openSet.any fun c => c.row == neighbor.row && c.col == neighbor.col then
                   st.openSet
                 else st.openSet ++ [neighbor]
               cameFrom := mapSet st.cameFrom neighbor current
               gScore := mapSet st.gScore neighbor tentativeGScore
               fScore :=
                 mapSet st.fScore neighbor (tentativeGScore + (heuristic neighbor goal : ℚ)) }
           else st) = st := by
      by_cases hw : cell.walkable
      · have htent : jsOrInfinity (mapGet st.gScore current) + 1 = (⊤ : Score) := by
          rw [h]
          simp [jsOrInfinity]
        simp only [hw, Bool.not_true, htent]
        rw [if_neg (by simp)]
        rw [if_neg (by exact not_top_lt)]
      · simp [hw]
    show List.foldl _ _ (cell :: cells) = st
    rw [List.foldl_cons]
    show List.foldl _ (if !cell.walkable then st else _) cells = st
    rw [hstep]
    exact ih

/-- Any run of the search loop from the seeded initial state: it returns
`[start]` immediately when `start = goal`, and otherwise exhausts the open
set after the first iteration and fails. -/
lemma astarLoop_seeded (g : GridManager) (start goal : GridCoordinate)
    (fuel : ℕ) (fs : List (GridCoordinate × Score)) :
    astarLoop g goal (fuel + 2)
        { openSet := [start], cameFrom := [], gScore := [(start, (0 : Score))], fScore := fs } =
      if start = goal then some [start] else none := by
  rw [show fuel + 2 = (fuel + 1) + 1 from rfl]
  show (match [start] with
    | [] => none
    | first :: rest =>
      let sel := selectCurrent fs first rest
      let current := sel.1
      if current = goal then
        some (reconstructPath (([] : List (GridCoordinate × GridCoordinate)).length + 1) [] current [])
      else
        let st' :=
          relaxNeighbors goal current (getNeighborCells g current.row current.col false)
            { openSet := [start].eraseIdx sel.2
              cameFrom := []
              gScore := [(start, (0 : Score))]
              fScore := fs }
        astarLoop g goal (fuel + 1) st') = _
  have hsel : selectCurrent fs start [] = (start, 0) := rfl
  simp only [hsel]
  by_cases hgoal : start = goal
  · simp [hgoal, reconstructPath, mapGet]
  · rw [if_neg hgoal, if_neg hgoal]
    have herase : [start].eraseIdx 0 = ([] : List GridCoordinate) := rfl
    rw [herase]
    rw [relaxNeighbors_gScore_zero _ _ _ _ (by simp [mapGet])]
    rfl

/-- `findPath`, exactly, on every grid: `some [start]` for valid
`start = goal`, `none` in every other case. -/
lemma findPath_characterization (g : GridManager) (start goal : GridCoordinate) :
    findPath g start goal =
      if isValidCoordinate g start.row start.col && isValidCoordinate g goal.row goal.col then
        (if start = goal then some [start] else none)
      else none := by
  unfold findPath
  by_cases hs : isValidCoordinate g start.row start.col
  · by_cases hgl : isValidCoordinate g goal.row goal.col
    · rw [if_neg (by simp [hs, hgl]), if_pos (by simp [hs, hgl])]
      exact astarLoop_seeded g start goal _ _
    · rw [if_pos (by simp [hgl]), if_neg (by simp [hgl])]
  · rw [if_pos (by simp [hs]), if_neg (by simp [hs])]

/-- C1, evaluated at the failing input: on the 1×2 grid both cells are
walkable and 4-adjacent (`heuristic = 1`), so the claimed behavior is a
returned path `[(0,0), (0,1)]` of length `1 + 1 = 2`; the code instead
returns `none` (and it also returns `some [start]` for `start = goal`
and `none` out of bounds, per `findPath_characterization`). -/
theorem claim_C1_findPath_degenerate :
    (getCell demoGrid12 0 0).map (fun c => c.walkable) = some true ∧
      (getCell demoGrid12 0 1).map (fun c => c.walkable) = some true ∧
      heuristic { row := 0, col := 0 } { row := 0, col := 1 } = 1 ∧
      findPath demoGrid12 { row := 0, col := 0 } { row := 0, col := 1 } = none ∧
      findPath demoGrid12 { row := 0, col := 0 } { row := 0, col := 0 } =
        some [{ row := 0, col := 0 }] := by
  refine ⟨by decide, by decide, by decide, ?_, ?_⟩
  · rw [findPath_characterization]
    decide
  · rw [findPath_characterization]
    decide

/-- Setting an index to the value it already holds leaves a list unchanged. -/
lemma list_set_get?_same {α : Type} :
    ∀ (l : List α) (n : ℕ) (a : α), l.get? n = some a → l.set n a = l
  | [], n, a, h => by simp [List.get?] at h
  | x :: xs, 0, a, h => by
    simp [List.get?] at h
    simp [List.set, h]
  | x :: xs, n + 1, a, h => by
    simp only [List.get?] at h
    simp [List.set, list_set_get?_same xs n a h]

/-- `map` commutes with `set`. -/
lemma list_map_set {α β : Type} (f : α → β) :
    ∀ (l : List α) (n : ℕ) (a : α), (l.set n a).map f = (l.map f).set n (f a)
  | [], _, _ => rfl
  | x :: xs, 0, a => rfl
  | x :: xs, n + 1, a => by simp [List.set, list_map_set f xs n a]

/-- `get?` after `set` at the written index. -/
lemma list_get?_set_self {α : Type} :
    ∀ (l : List α) (n : ℕ) (a : α), n < l.length → (l.set n a).get? n = some a
  | [], n, a, h => by simp at h
  | x :: xs, 0, a, _ => rfl
  | x :: xs, n + 1, a, h => by
    simp only [List.length_cons, Nat.add_lt_add_iff_right] at h
    simpa [List.set, List.get?] using list_get?_set_self xs n a h

/-- `get?` after `set` at another index. -/
lemma list_get?_set_ne {α : Type} :
    ∀ (l : List α) (m n : ℕ) (a : α), m ≠ n → (l.set m a).get? n = l.get? n
  | [], _, _, _, _ => rfl
  | x :: xs, 0, 0, a, h => absurd rfl h
  | x :: xs, 0, n + 1, a, _ => rfl
  | x :: xs, m + 1, 0, a, _ => rfl
  | x :: xs, m + 1, n + 1, a, h => by
    simpa [List.set, List.get?] using
      list_get?_set_ne xs m n a (fun hmn => h (by rw [hmn]))

/-- The occupancy-erasing projection of a cell. -/
def eraseOccCell (cell : GridCell) : GridCell :=
  { cell with occupied := false, occupant := none }

/-- Two grid states identical except in the `occupied`/`occupant` fields of
their cells. -/
def OccEquiv (g1 g2 : GridManager) : Prop :=
  g1.rows = g2.rows ∧ g1.cols = g2.cols ∧ g1.cellWidth = g2.cellWidth ∧
    g1.cellHeight = g2.cellHeight ∧ g1.startPosition = g2.startPosition ∧
    g1.grid.map (fun row => row.map eraseOccCell) =
      g2.grid.map (fun row => row.map eraseOccCell)

/-- Destructor for a successful `getCell`. -/
lemma getCell_some_parts {g : GridManager} {r c : ℤ} {cell : GridCell}
    (h : getCell g r c = some cell) :
    isValidCoordinate g r c = true ∧
      ∃ rowList, g.grid.get? r.toNat = some rowList ∧ rowList.get? c.toNat = some cell := by
  unfold getCell at h
  by_cases hv : isValidCoordinate g r c
  · rw [if_pos hv] at h
    exact ⟨hv, Option.bind_eq_some.mp h⟩
  · rw [if_neg hv] at h
    exact absurd h (by simp)

lemma OccEquiv_refl (g : GridManager) : OccEquiv g g :=
  ⟨rfl, rfl, rfl, rfl, rfl, rfl⟩

/-- Overwriting a present cell with a version that differs only in its
occupancy fields is invisible to the occupancy-erased grid. -/
lemma OccEquiv_setCellInGrid {g : GridManager} {r c : ℤ} {cell cell' : GridCell}
    (hget : getCell g r c = some cell)
    (hocc : eraseOccCell cell' = eraseOccCell cell) :
    OccEquiv g (setCellInGrid g r c cell') := by
  obtain ⟨-, rowList, hrow, hcell⟩ := getCell_some_parts hget
  unfold setCellInGrid
  rw [hrow]
  refine ⟨rfl, rfl, rfl, rfl, rfl, ?_⟩
  show _ = ((g.grid.set r.toNat (rowList.set c.toNat cell')).map
    fun row => row.map eraseOccCell)
  rw [list_map_set, list_map_set, hocc]
  have hinner : (rowList.map eraseOccCell).set c.toNat (eraseOccCell cell) =
      rowList.map eraseOccCell :=
    list_set_get?_same _ _ _ (by rw [List.get?_map, hcell]; rfl)
  rw [hinner]
  exact (list_set_get?_same _ _ _ (by rw [List.get?_map, hrow]; rfl)).symm

/-- `setCellOccupied` changes at most occupancy fields, so its result is
`OccEquiv` to its input. -/
lemma OccEquiv_setCellOccupied (g : GridManager) (r c : ℤ) (v : Option ℕ) :
    OccEquiv g (setCellOccupied g r c v).2 := by
  unfold setCellOccupied
  cases hget : getCell g r c with
  | none => exact OccEquiv_refl g
  | some cell =>
    by_cases h1 : v.isSome && cell.occupied
    · simp only [h1]
      exact OccEquiv_refl g
    · by_cases h2 : v.isSome && !cell.buildable
      · simp only [h1, h2]
        exact OccEquiv_refl g
      · simp only [h1, h2, Bool.false_eq_true, if_false]
        exact OccEquiv_setCellInGrid hget rfl

/-- C5: `findPath` never reads occupancy — two grid states that are
identical except in the `occupied`/`occupant` fields of their cells produce
the same `findPath` result for every pair of endpoints. -/
theorem claim_C5_findPath_occupancy_independent (g1 g2 : GridManager)
    (h : OccEquiv g1 g2) (s e : GridCoordinate) :
    findPath g1 s e = findPath g2 s e := by
  obtain ⟨hrows, hcols, -, -, -, -⟩ := h
  rw [findPath_characterization, findPath_characterization]
  simp only [isValidCoordinate, hrows, hcols]

/-- Witness for C5: the 2×3 grid before and after occupying cell `(0, 1)`
(a buildable `PLANT_ZONE` cell) gives equal `findPath` results. -/
theorem claim_C5_findPath_occupancy_independent_witness :
    OccEquiv demoGrid23 (setCellOccupied demoGrid23 0 1 (some 7)).2 ∧
      (getCell demoGrid23 0 1).map (fun c => c.occupied) = some false ∧
      (getCell (setCellOccupied demoGrid23 0 1 (some 7)).2 0 1).map
        (fun c => c.occupied) = some true ∧
      findPath demoGrid23 { row := 0, col := 0 } { row := 1, col := 2 } =
        findPath (setCellOccupied demoGrid23 0 1 (some 7)).2
          { row := 0, col := 0 } { row := 1, col := 2 } :=
  ⟨OccEquiv_setCellOccupied demoGrid23 0 1 (some 7), by decide, by decide,
    claim_C5_findPath_occupancy_independent _ _
      (OccEquiv_setCellOccupied demoGrid23 0 1 (some 7)) _ _⟩

/-! ### Cell mutation: type flags, occupancy, frame properties -/

lemma list_get?_some_lt {α : Type} :
    ∀ {l : List α} {n : ℕ} {a : α}, l.get? n = some a → n < l.length
  | [], n, a, h => by simp [List.get?] at h
  | x :: xs, 0, a, _ => Nat.succ_pos _
  | x :: xs, n + 1, a, h => by
    simp only [List.get?] at h
    exact Nat.succ_lt_succ (list_get?_some_lt h)

/-- `getCell` on a lattice-only update of the manager. -/
lemma getCell_grid_update (g : GridManager) (X : List (List GridCell)) (i j : ℤ) :
    getCell { g with grid := X } i j =
      if isValidCoordinate g i j then
        (X.get? i.toNat).bind fun rowList => rowList.get? j.toNat
      else none := rfl

/-- Reading back the cell just written. -/
lemma getCell_setCellInGrid_self {g : GridManager} {r c : ℤ} {cell : GridCell}
    (cell' : GridCell) (hget : getCell g r c = some cell) :
    getCell (setCellInGrid g r c cell') r c = some cell' := by
  obtain ⟨hv, rowList, hrow, hcell⟩ := getCell_some_parts hget
  unfold setCellInGrid
  rw [getCell_grid_update, if_pos hv, hrow]
  show ((g.grid.set r.toNat (rowList.set c.toNat cell')).get? r.toNat).bind
    (fun rowList => rowList.get? c.toNat) = some cell'
  rw [list_get?_set_self _ _ _ (list_get?_some_lt hrow)]
  show (rowList.set c.toNat cell').get? c.toNat = some cell'
  exact list_get?_set_self _ _ _ (list_get?_some_lt hcell)

/-- Writing cell `(r, c)` does not affect reads at any other coordinate. -/
lemma getCell_setCellInGrid_ne {g : GridManager} {r c : ℤ} (cell' : GridCell)
    (hr : 0 ≤ r) (hc : 0 ≤ c) (i j : ℤ) (hne : ¬(i = r ∧ j = c)) :
    getCell (setCellInGrid g r c cell') i j = getCell g i j := by
  unfold setCellInGrid
  rw [getCell_grid_update]
  unfold getCell
  by_cases hv : isValidCoordinate g i j
  · have hv' : 0 ≤ i ∧ i < g.rows ∧ 0 ≤ j ∧ j < g.cols :=
      (isValidCoordinate_iff g i j).mp hv
    rw [if_pos hv, if_pos hv]
    cases hrow : g.grid.get? r.toNat with
    | none => rfl
    | some rowList =>
      show ((g.grid.set r.toNat (rowList.set c.toNat cell')).get? i.toNat).bind
        (fun rowList => rowList.get? j.toNat) = _
      by_cases hir : i.toNat = r.toNat
      · have hieq : i = r := by omega
        have hjc : j ≠ c := fun hj => hne ⟨hieq, hj⟩
        have hjc' : c.toNat ≠ j.toNat := by omega
        rw [hieq, list_get?_set_self _ _ _ (list_get?_some_lt hrow), hrow]
        show (rowList.set c.toNat cell').get? j.toNat = rowList.get? j.toNat
        exact list_get?_set_ne _ _ _ _ hjc'
      · rw [list_get?_set_ne _ _ _ _ fun h => hir h.symm]
  · rw [if_neg hv, if_neg hv]

/-- The walkable/buildable derivation table exactly as the specification
states it (Spawn/Goal/Path → walkable only; PlantZone → buildable only;
Obstacle → neither; Empty/Special → both). -/
def claimFlags : GridCellType → Bool × Bool
  | GridCellType.SPAWN => (true, false)
  | GridCellType.GOAL => (true, false)
  | GridCellType.PATH => (true, false)
  | GridCellType.PLANT_ZONE => (false, true)
  | GridCellType.OBSTACLE => (false, false)
  | GridCellType.EMPTY => (true, true)
  | GridCellType.SPECIAL => (true, true)

lemma configureCellByType_flags (cell : GridCell) :
    ((configureCellByType cell).walkable, (configureCellByType cell).buildable) =
      claimFlags cell.cellType := by
  cases h : cell.cellType <;> simp [configureCellByType, h, claimFlags]

lemma configureCellByType_cellType (cell : GridCell) :
    (configureCellByType cell).cellType = cell.cellType := by
  cases h : cell.cellType <;> simp [configureCellByType, h]

lemma configureCellByType_occupancy (cell : GridCell) :
    (configureCellByType cell).occupied = cell.occupied ∧
      (configureCellByType cell).occupant = cell.occupant := by
  cases h : cell.cellType <;> simp [configureCellByType, h]

lemma configureCellByType_coordinate (cell : GridCell) :
    (configureCellByType cell).coordinate = cell.coordinate := by
  cases h : cell.cellType <;> simp [configureCellByType, h]

/-- Identify the cell stored at a valid coordinate of a freshly initialized
lattice. -/
lemma getCell_initializeGrid {g : GridManager} {r c : ℤ} {cell : GridCell}
    (h : getCell (initializeGrid g) r c = some cell) :
    cell = createGridCell g (Int.ofNat r.toNat) (Int.ofNat c.toNat) := by
  obtain ⟨-, rowList, hrow, hcell⟩ := getCell_some_parts h
  simp only [initializeGrid, List.get?_map] at hrow
  cases hr : (List.range g.rows.toNat).get? r.toNat with
  | none => rw [hr] at hrow; exact absurd hrow (by simp)
  | some k =>
    have hltr : r.toNat < g.rows.toNat := by
      simpa only [List.length_range] using list_get?_some_lt hr
    have hk : k = r.toNat := by
      rw [List.get?_range hltr] at hr
      exact (Option.some_inj.mp hr).symm
    rw [hr, hk] at hrow
    simp only [Option.map_some'] at hrow
    have hrowList : rowList = (List.range g.cols.toNat).map
        fun col => createGridCell g (Int.ofNat r.toNat) (Int.ofNat col) :=
      (Option.some_inj.mp hrow).symm
    rw [hrowList, List.get?_map] at hcell
    cases hcn : (List.range g.cols.toNat).get? c.toNat with
    | none => rw [hcn] at hcell; exact absurd hcell (by simp)
    | some k2 =>
      have hltc : c.toNat < g.cols.toNat := by
        simpa only [List.length_range] using list_get?_some_lt hcn
      have hk2 : k2 = c.toNat := by
        rw [List.get?_range hltc] at hcn
        exact (Option.some_inj.mp hcn).symm
      rw [hcn, hk2] at hcell
      simp only [Option.map_some'] at hcell
      exact (Option.some_inj.mp hcell).symm

/-- C3: the `walkable`/`buildable` flags always equal the fixed derivation
table — for any cell run through `configureCellByType`, for the cell at the
written coordinate after any `setCellType`, and for every cell of a freshly
created lattice. -/
theorem claim_C3_flags_derived_from_type :
    (∀ cell : GridCell,
        ((configureCellByType cell).walkable, (configureCellByType cell).buildable) =
          claimFlags cell.cellType) ∧
      (∀ (g : GridManager) (r c : ℤ) (t : GridCellType) (cell : GridCell),
          getCell (setCellType g r c t).2 r c = some cell →
            cell.cellType = t ∧ (cell.walkable, cell.buildable) = claimFlags t) ∧
      (∀ (g : GridManager) (r c : ℤ) (cell : GridCell),
          getCell (initializeGrid g) r c = some cell →
            (cell.walkable, cell.buildable) = claimFlags cell.cellType) := by
  refine ⟨configureCellByType_flags, ?_, ?_⟩
  · intro g r c t cell hget
    unfold setCellType at hget
    cases h0 : getCell g r c with
    | none =>
      simp only [h0] at hget
      exact absurd hget (by simp)
    | some cell0 =>
      simp only [h0] at hget
      rw [getCell_setCellInGrid_self (configureCellByType { cell0 with cellType := t }) h0]
        at hget
      have hcell := Option.some_inj.mp hget
      subst hcell
      refine ⟨?_, ?_⟩
      · rw [configureCellByType_cellType]
      · rw [configureCellByType_flags]
  · intro g r c cell hget
    rw [getCell_initializeGrid hget]
    unfold createGridCell
    rw [configureCellByType_cellType, configureCellByType_flags]

/-- Witness for C3: setting `(0, 1)` of the 2×3 grid to `OBSTACLE` yields a
cell with `walkable = false`, `buildable = false`. -/
theorem claim_C3_flags_derived_from_type_witness :
    (getCell (setCellType demoGrid23 0 1 GridCellType.OBSTACLE).2 0 1).map
        (fun cl => (cl.cellType, cl.walkable, cl.buildable)) =
      some (GridCellType.OBSTACLE, false, false) := by
  cases hget : getCell (setCellType demoGrid23 0 1 GridCellType.OBSTACLE).2 0 1 with
  | none =>
    have hs : (getCell (setCellType demoGrid23 0 1 GridCellType.OBSTACLE).2 0 1).isSome
        = true := by decide
    rw [hget] at hs
    exact absurd hs (by simp)
  | some cl =>
    obtain ⟨h1, h2⟩ :=
      claim_C3_flags_derived_from_type.2.1 demoGrid23 0 1 GridCellType.OBSTACLE cl hget
    have h2' : cl.walkable = false ∧ cl.buildable = false := by
      have : claimFlags GridCellType.OBSTACLE = (false, false) := rfl
      rw [this, Prod.ext_iff] at h2
      exact h2
    simp only [Option.map_some']
    rw [h1, h2'.1, h2'.2]

/-- C10: `setCellType` leaves `occupied` and `occupant` unchanged at every
coordinate; in particular a cell occupied before `setCellType(..., OBSTACLE)`
is still occupied (with the same occupant) afterwards while having become
non-buildable. -/
theorem claim_C10_setCellType_occupancy_frame :
    (∀ (g : GridManager) (r c : ℤ) (t : GridCellType) (i j : ℤ),
        (getCell (setCellType g r c t).2 i j).map (fun cl => (cl.occupied, cl.occupant)) =
          (getCell g i j).map (fun cl => (cl.occupied, cl.occupant))) ∧
      (∀ (g : GridManager) (r c : ℤ) (cell : GridCell),
          getCell g r c = some cell → cell.occupied = true →
            ∀ cl, getCell (setCellType g r c GridCellType.OBSTACLE).2 r c = some cl →
              cl.occupied = true ∧ cl.buildable = false ∧ cl.occupant = cell.occupant) := by
  constructor
  · intro g r c t i j
    unfold setCellType
    cases h0 : getCell g r c with
    | none => rfl
    | some cell0 =>
      simp only
      by_cases hij : i = r ∧ j = c
      · obtain ⟨hi, hj⟩ := hij
        subst hi; subst hj
        rw [getCell_setCellInGrid_self (configureCellByType { cell0 with cellType := t }) h0,
          h0]
        simp only [Option.map_some']
        obtain ⟨ho1, ho2⟩ := configureCellByType_occupancy { cell0 with cellType := t }
        rw [ho1, ho2]
      · have hv := (isValidCoordinate_iff g r c).mp (getCell_some_parts h0).1
        rw [getCell_setCellInGrid_ne _ hv.1 hv.2.2.1 i j hij]
  · intro g r c cell hget hocc cl hcl
    unfold setCellType at hcl
    simp only [hget] at hcl
    rw [getCell_setCellInGrid_self
      (configureCellByType { cell with cellType := GridCellType.OBSTACLE }) hget] at hcl
    have hcl' := Option.some_inj.mp hcl
    subst hcl'
    obtain ⟨ho1, ho2⟩ :=
      configureCellByType_occupancy { cell with cellType := GridCellType.OBSTACLE }
    have hfl := configureCellByType_flags { cell with cellType := GridCellType.OBSTACLE }
    have hb : (configureCellByType { cell with cellType := GridCellType.OBSTACLE }).buildable
        = false := congrArg Prod.snd hfl
    exact ⟨by rw [ho1]; exact hocc, hb, by rw [ho2]⟩

/-- The 2×3 grid with cell `(0, 1)` occupied by handle `7`. -/
def demoGrid23occ : GridManager := (setCellOccupied demoGrid23 0 1 (some 7)).2

/-- Witness for C10: occupy `(0, 1)`, then set it to `OBSTACLE`; the cell
stays occupied by handle `7` and is now non-buildable. -/
theorem claim_C10_setCellType_occupancy_frame_witness :
    (getCell (setCellType demoGrid23occ 0 1 GridCellType.OBSTACLE).2 0 1).map
        (fun cl => (cl.occupied, cl.occupant)) =
      (getCell demoGrid23occ 0 1).map (fun cl => (cl.occupied, cl.occupant)) ∧
      (getCell demoGrid23occ 0 1).map (fun cl => cl.occupied) = some true ∧
      (getCell (setCellType demoGrid23occ 0 1 GridCellType.OBSTACLE).2 0 1).map
        (fun cl => (cl.occupied, cl.buildable, cl.occupant)) =
      some (true, false, some 7) := by
  refine ⟨claim_C10_setCellType_occupancy_frame.1 demoGrid23occ 0 1 GridCellType.OBSTACLE 0 1,
    by decide, ?_⟩
  cases hget : getCell demoGrid23occ 0 1 with
  | none =>
    have hs : (getCell demoGrid23occ 0 1).isSome = true := by decide
    rw [hget] at hs
    exact absurd hs (by simp)
  | some cell =>
    have hocc : cell.occupied = true := by
      have hs : (getCell demoGrid23occ 0 1).map (fun cl => cl.occupied) = some true := by
        decide
      rw [hget] at hs
      simpa using hs
    have hoccu : cell.occupant = some 7 := by
      have hs : (getCell demoGrid23occ 0 1).map (fun cl => cl.occupant) = some (some 7) := by
        decide
      rw [hget] at hs
      simpa using hs
    cases hcl : getCell (setCellType demoGrid23occ 0 1 GridCellType.OBSTACLE).2 0 1 with
    | none =>
      have hs : (getCell (setCellType demoGrid23occ 0 1 GridCellType.OBSTACLE).2 0 1).isSome
          = true := by decide
      rw [hcl] at hs
      exact absurd hs (by simp)
    | some cl =>
      obtain ⟨h1, h2, h3⟩ :=
        claim_C10_setCellType_occupancy_frame.2 demoGrid23occ 0 1 cell hget hocc cl hcl
      simp only [Option.map_some']
      rw [h1, h2, h3, hoccu]

/-- C4: the occupancy protocol.  A non-null occupy call succeeds exactly
when `canPlaceAt` holds (valid, buildable, not yet occupied); a failed call
returns the state unchanged; a successful call marks the cell occupied by
the given occupant; a null occupy call always succeeds on an existing cell
and clears its occupancy. -/
theorem claim_C4_occupancy_protocol (g : GridManager) (r c : ℤ) :
    (∀ o : ℕ,
        (setCellOccupied g r c (some o)).1 = canPlaceAt g r c ∧
          ((setCellOccupied g r c (some o)).1 = false →
            (setCellOccupied g r c (some o)).2 = g) ∧
          (∀ cell, getCell g r c = some cell →
            (setCellOccupied g r c (some o)).1 = true →
              getCell (setCellOccupied g r c (some o)).2 r c =
                some { cell with occupied := true, occupant := some o })) ∧
      (∀ cell, getCell g r c = some cell →
          (setCellOccupied g r c none).1 = true ∧
            getCell (setCellOccupied g r c none).2 r c =
              some { cell with occupied := false, occupant := none }) := by
  constructor
  · intro o
    cases h0 : getCell g r c with
    | none =>
      refine ⟨by simp [setCellOccupied, canPlaceAt, h0], fun _ => by simp [setCellOccupied, h0],
        fun cell hcell => Option.noConfusion hcell⟩
    | some cell =>
      cases hocc : cell.occupied
      · cases hb : cell.buildable
        · refine ⟨by simp [setCellOccupied, canPlaceAt, h0, hocc, hb], ?_, ?_⟩
          · intro _
            simp [setCellOccupied, h0, hocc, hb]
          · intro cell' hcell' htrue
            rw [setCellOccupied] at htrue
            simp [h0, hocc, hb] at htrue
        · refine ⟨by simp [setCellOccupied, canPlaceAt, h0, hocc, hb], ?_, ?_⟩
          · intro hfalse
            rw [setCellOccupied] at hfalse
            simp [h0, hocc, hb] at hfalse
          · intro cell' hcell' _
            have hc' : cell' = cell := (Option.some_inj.mp hcell').symm
            subst hc'
            rw [setCellOccupied]
            simp only [h0, Option.isSome_some, hocc, hb, Bool.true_and, Bool.not_true,
              Bool.false_eq_true, if_false, Bool.and_false]
            exact getCell_setCellInGrid_self _ h0
      · refine ⟨by simp [setCellOccupied, canPlaceAt, h0, hocc], ?_, ?_⟩
        · intro _
          simp [setCellOccupied, h0, hocc]
        · intro cell' hcell' htrue
          rw [setCellOccupied] at htrue
          simp [h0, hocc] at htrue
  · intro cell hcell
    constructor
    · simp [setCellOccupied, hcell]
    · rw [setCellOccupied]
      simp only [hcell, Option.isSome_none, Bool.false_and, Bool.false_eq_true, if_false]
      exact getCell_setCellInGrid_self _ hcell

/-- Witness for C4 on the 2×3 grid: `(0, 1)` is a free `PLANT_ZONE` cell, so
occupying it succeeds and records the occupant; `(0, 0)` is a `GOAL` cell
(non-buildable), so occupying it fails and the state is returned unchanged;
clearing `(0, 1)` afterwards succeeds. -/
theorem claim_C4_occupancy_protocol_witness :
    canPlaceAt demoGrid23 0 1 = true ∧
      (setCellOccupied demoGrid23 0 1 (some 5)).1 = true ∧
      canPlaceAt demoGrid23 0 0 = false ∧
      (setCellOccupied demoGrid23 0 0 (some 5)).2 = demoGrid23 ∧
      (getCell (setCellOccupied demoGrid23 0 1 (some 5)).2 0 1).map
        (fun cl => (cl.occupied, cl.occupant)) = some (true, some 5) := by
  have hplace : canPlaceAt demoGrid23 0 1 = true := by decide
  have hfire := (claim_C4_occupancy_protocol demoGrid23 0 1).1 5
  have hsucc : (setCellOccupied demoGrid23 0 1 (some 5)).1 = true := by
    rw [hfire.1]; exact hplace
  have hfail := (claim_C4_occupancy_protocol demoGrid23 0 0).1 5
  refine ⟨hplace, hsucc, by decide, hfail.2.1 (by rw [hfail.1]; decide), ?_⟩
  cases hget : getCell demoGrid23 0 1 with
  | none =>
    have hs : (getCell demoGrid23 0 1).isSome = true := by decide
    rw [hget] at hs
    exact absurd hs (by simp)
  | some cell =>
    rw [hfire.2.2 cell hget hsucc]
    rfl

/-! ### C6 — the energy invariant -/

/-- The bounded-energy invariant of a weapon-controller state. -/
def EnergyInv (s : WeaponsSystem) : Prop :=
  0 ≤ s.currentEnergy ∧ s.currentEnergy ≤ s.maxEnergy

/-- A successful `configsGet` lookup returns an entry of the map. -/
lemma configsGet_mem :
    ∀ {m : List (WeaponType × WeaponConfig)} {k : WeaponType} {v : WeaponConfig},
      configsGet m k = some v → (k, v) ∈ m
  | [], _, _, h => by simp [configsGet] at h
  | (k', v') :: rest, k, v, h => by
    unfold configsGet at h
    by_cases hk : k' = k
    · rw [if_pos hk] at h
      have hv := Option.some_inj.mp h
      subst hv
      subst hk
      exact List.mem_cons_self _ _
    · rw [if_neg hk] at h
      exact List.mem_cons_of_mem _ (configsGet_mem h)

/-- If every stored config has a nonnegative energy cost, so does the
active config (the fallback Normal default costs `1`). -/
lemma getCurrentWeaponConfig_cost_nonneg (s : WeaponsSystem)
    (hcfg : ∀ p ∈ s.weaponConfigs, 0 ≤ p.2.energyCost) :
    0 ≤ (getCurrentWeaponConfig s).energyCost := by
  unfold getCurrentWeaponConfig
  cases hc : configsGet s.weaponConfigs s.currentWeaponType with
  | none =>
    show (0 : ℚ) ≤ (DEFAULT_WEAPON_CONFIGS .BULLET_TYPE_NORMAL).energyCost
    norm_num [DEFAULT_WEAPON_CONFIGS]
  | some cfg => exact hcfg _ (configsGet_mem hc)

/-- A positive `canFire` implies the energy check passed. -/
lemma canFire_cost_le {s : WeaponsSystem} {now : ℚ} (h : canFire s now = true) :
    (getCurrentWeaponConfig s).energyCost ≤ s.currentEnergy := by
  unfold canFire at h
  by_cases h1 : now < s.cooldownEndTime
  · rw [if_pos h1] at h
    exact absurd h (by simp)
  · rw [if_neg h1] at h
    by_cases h2 : now - s.lastFireTime < 1 / (getCurrentWeaponConfig s).fireRate
    · rw [if_pos h2] at h
      exact absurd h (by simp)
    · rw [if_neg h2] at h
      by_cases h3 : s.currentEnergy < (getCurrentWeaponConfig s).energyCost
      · rw [if_pos h3] at h
        exact absurd h (by simp)
      · exact le_of_not_lt h3

/-- `fire` changes only energy and the two timestamps. -/
lemma fire_static (s : WeaponsSystem) (now : ℚ) :
    (fire s now).2.maxEnergy = s.maxEnergy ∧
      (fire s now).2.energyRegenRate = s.energyRegenRate ∧
      (fire s now).2.weaponConfigs = s.weaponConfigs := by
  unfold fire
  split <;> exact ⟨rfl, rfl, rfl⟩

/-- `updateEnergyRegen` changes only energy. -/
lemma updateEnergyRegen_static (s : WeaponsSystem) (dt : ℚ) :
    (updateEnergyRegen s dt).maxEnergy = s.maxEnergy ∧
      (updateEnergyRegen s dt).energyRegenRate = s.energyRegenRate ∧
      (updateEnergyRegen s dt).weaponConfigs = s.weaponConfigs := by
  unfold updateEnergyRegen
  split <;> exact ⟨rfl, rfl, rfl⟩

/-- Regeneration keeps the energy inside `[0, maxEnergy]`. -/
lemma updateEnergyRegen_inv {s : WeaponsSystem} {dt : ℚ}
    (hreg : 0 ≤ s.energyRegenRate) (hdt : 0 ≤ dt) (hinv : EnergyInv s) :
    EnergyInv (updateEnergyRegen s dt) := by
  unfold EnergyInv updateEnergyRegen
  split
  · constructor
    · exact le_min (hinv.1.trans hinv.2)
        (add_nonneg hinv.1 (mul_nonneg hreg hdt))
    · exact min_le_left _ _
  · exact hinv

/-- Firing keeps the energy inside `[0, maxEnergy]`. -/
lemma fire_inv {s : WeaponsSystem} {now : ℚ}
    (hcfg : ∀ p ∈ s.weaponConfigs, 0 ≤ p.2.energyCost) (hinv : EnergyInv s) :
    EnergyInv (fire s now).2 := by
  unfold fire
  by_cases hcf : canFire s now
  · rw [if_neg (by simp [hcf])]
    refine ⟨sub_nonneg.mpr (canFire_cost_le hcf), ?_⟩
    calc s.currentEnergy - (getCurrentWeaponConfig s).energyCost
        ≤ s.currentEnergy :=
          sub_le_self _ (getCurrentWeaponConfig_cost_nonneg s hcfg)
      _ ≤ s.maxEnergy := hinv.2
  · rw [if_pos (by simp [hcf])]
    exact hinv

/-- One step of the controller preserves the invariant together with the
static fields it depends on. -/
lemma stepWeaponOp_inv {s : WeaponsSystem} {op : WeaponOp}
    (hreg : 0 ≤ s.energyRegenRate)
    (hcfg : ∀ p ∈ s.weaponConfigs, 0 ≤ p.2.energyCost)
    (hdt : ∀ dt now, op = WeaponOp.update dt now → 0 ≤ dt)
    (hinv : EnergyInv s) :
    EnergyInv (stepWeaponOp s op) ∧
      (stepWeaponOp s op).energyRegenRate = s.energyRegenRate ∧
      (stepWeaponOp s op).weaponConfigs = s.weaponConfigs := by
  cases op with
  | update dt now =>
    have hdt' : 0 ≤ dt := hdt dt now rfl
    have hregen := updateEnergyRegen_inv hreg hdt' hinv
    have hstat := updateEnergyRegen_static s dt
    have hupd : stepWeaponOp s (WeaponOp.update dt now) =
        (if (updateEnergyRegen s dt).autoFire && canFire (updateEnergyRegen s dt) now then
          (fire (updateEnergyRegen s dt) now).2
        else updateEnergyRegen s dt) := rfl
    rw [hupd]
    split
    · have hfs := fire_static (updateEnergyRegen s dt) now
      exact ⟨fire_inv (by rw [hstat.2.2]; exact hcfg) hregen,
        hfs.2.1.trans hstat.2.1, hfs.2.2.trans hstat.2.2⟩
    · exact ⟨hregen, hstat.2.1, hstat.2.2⟩
  | fire now =>
    have hfs := fire_static s now
    exact ⟨fire_inv hcfg hinv, hfs.2.1, hfs.2.2⟩

/-- C6: starting from any controller state with `0 ≤ currentEnergy ≤
maxEnergy`, nonnegative regeneration rate and per-config energy costs, and
nonnegative tick lengths, any finite sequence of `update` and `fire` calls
keeps `currentEnergy` within `[0, maxEnergy]`. -/
theorem claim_C6_energy_bounds (s : WeaponsSystem) (ops : List WeaponOp)
    (hreg : 0 ≤ s.energyRegenRate)
    (hcfg : ∀ p ∈ s.weaponConfigs, 0 ≤ p.2.energyCost)
    (hdt : ∀ dt now, WeaponOp.update dt now ∈ ops → 0 ≤ dt)
    (hinv : 0 ≤ s.currentEnergy ∧ s.currentEnergy ≤ s.maxEnergy) :
    0 ≤ (runWeaponOps s ops).currentEnergy ∧
      (runWeaponOps s ops).currentEnergy ≤ (runWeaponOps s ops).maxEnergy := by
  induction ops generalizing s with
  | nil => exact hinv
  | cons op rest ih =>
    obtain ⟨hinv', hreg', hcfg'⟩ :=
      @stepWeaponOp_inv s op hreg hcfg
        (fun dt now hop => hdt dt now (by rw [← hop]; exact List.mem_cons_self _ _)) hinv
    show 0 ≤ (runWeaponOps (stepWeaponOp s op) rest).currentEnergy ∧ _
    exact ih (stepWeaponOp s op) (by rw [hreg']; exact hreg) (by rw [hcfg']; exact hcfg)
      (fun dt now hmem => hdt dt now (List.mem_cons_of_mem _ hmem)) hinv'

/-- The inspector-default weapon controller state (`currentEnergy = 100`,
`maxEnergy = 100`, `energyRegenRate = 5`, all four prefabs registered,
configs loaded from the defaults). -/
def demoWeapons : WeaponsSystem :=
  { currentWeaponType := .BULLET_TYPE_NORMAL
    bulletPrefabs := [true, true, true, true]
    autoFire := false
    currentEnergy := 100
    maxEnergy := 100
    energyRegenRate := 5
    weaponConfigs := loadWeaponConfigs
    lastFireTime := 0
    cooldownEndTime := 0 }

/-- Witness for C6: one one-second tick followed by a shot keeps the default
controller's energy within bounds. -/
theorem claim_C6_energy_bounds_witness :
    (0 : ℚ) ≤ demoWeapons.energyRegenRate ∧
      (0 ≤ demoWeapons.currentEnergy ∧ demoWeapons.currentEnergy ≤ demoWeapons.maxEnergy) ∧
      (0 ≤ (runWeaponOps demoWeapons
            [WeaponOp.update 1 1, WeaponOp.fire 1]).currentEnergy ∧
        (runWeaponOps demoWeapons
            [WeaponOp.update 1 1, WeaponOp.fire 1]).currentEnergy ≤
          (runWeaponOps demoWeapons [WeaponOp.update 1 1, WeaponOp.fire 1]).maxEnergy) := by
  refine ⟨by norm_num [demoWeapons], ⟨by norm_num [demoWeapons], by norm_num [demoWeapons]⟩, ?_⟩
  refine claim_C6_energy_bounds demoWeapons [WeaponOp.update 1 1, WeaponOp.fire 1]
    (by norm_num [demoWeapons]) ?_ ?_ ⟨by norm_num [demoWeapons], by norm_num [demoWeapons]⟩
  · intro p hp
    simp only [demoWeapons, loadWeaponConfigs, List.mem_cons, List.not_mem_nil, or_false]
      at hp
    rcases hp with rfl | rfl | rfl | rfl <;> norm_num [DEFAULT_WEAPON_CONFIGS]
  · intro dt now hmem
    simp only [List.mem_cons, List.not_mem_nil, or_false] at hmem
    rcases hmem with h | h
    · cases h
      norm_num
    · cases h

/-! ### C7 — penetration and the destruction decision -/

/-- The destruction decision after the bump to `hitCount`: the dedicated
laser branch computes the same comparison as the generic penetration branch,
so the whole decision collapses to
`penetration ≤ 0 ∨ hitCount ≥ penetration`. -/
lemma shouldDestroyAfterHit_iff (b : Bullet) :
    shouldDestroyAfterHit b = true ↔
      (b.penetration ≤ 0 ∨ (b.hitCount : ℤ) ≥ b.penetration) := by
  unfold shouldDestroyAfterHit
  by_cases hl : b.isLaser && decide (0 < b.penetration)
  · have hpos : 0 < b.penetration := by
      have := (Bool.and_eq_true _ _).mp hl
      exact of_decide_eq_true this.2
    rw [if_pos hl]
    simp [not_le.mpr hpos, ge_iff_le]
  · rw [if_neg hl]
    by_cases hp : b.penetration ≤ 0
    · simp [hp]
    · simp [hp, ge_iff_le]

/-- C7: a distinct valid hit on an active projectile increments `hitCount`
and deactivates (recycles) the projectile exactly when `penetration ≤ 0` or
the new hit count has reached `penetration`; and a contact with a target
already in the hit-set changes nothing at all. -/
theorem claim_C7_penetration_destruction :
    (∀ (b : Bullet) (t : Target),
        b.active = true →
        ¬(b.hasHit = true ∧ b.penetration ≤ 0) →
        b.hitTargets.contains t.id = false →
        isValidTarget b t.tag = true →
          (onBeginContact b t).hitCount = b.hitCount + 1 ∧
            ((onBeginContact b t).active = false ↔
              (b.penetration ≤ 0 ∨ (b.hitCount : ℤ) + 1 ≥ b.penetration))) ∧
      (∀ (b : Bullet) (t : Target),
          b.hitTargets.contains t.id = true → onBeginContact b t = b) := by
  constructor
  · intro b t hact hguard hnew hvalid
    have hg : (b.hasHit && decide (b.penetration ≤ 0)) = false := by
      cases hh : b.hasHit with
      | false => rw [Bool.false_and]
      | true =>
        rw [Bool.true_and, decide_eq_false_iff_not]
        exact fun hp => hguard ⟨hh, hp⟩
    have hstep : onBeginContact b t = hitTarget b t := by
      unfold onBeginContact
      rw [hg]
      simp only [Bool.false_eq_true, if_false, hnew, hvalid, if_true]
    rw [hstep]
    unfold hitTarget
    set b1 : Bullet :=
      { b with hitTargets := t.id :: b.hitTargets, hitCount := b.hitCount + 1 } with hb1
    have hiff := shouldDestroyAfterHit_iff b1
    have hb1pen : b1.penetration = b.penetration := rfl
    have hb1cnt : (b1.hitCount : ℤ) = (b.hitCount : ℤ) + 1 := by
      rw [hb1]
      push_cast
      ring
    rw [hb1pen, hb1cnt] at hiff
    by_cases hd : shouldDestroyAfterHit b1 = true
    · rw [if_pos hd]
      exact ⟨rfl, by simpa using hiff.mp hd⟩
    · rw [if_neg hd]
      refine ⟨rfl, ?_⟩
      constructor
      · intro hfalse
        have hfalse' : b.active = false := hfalse
        rw [hact] at hfalse'
        exact Bool.noConfusion hfalse'
      · intro hcond
        exact absurd (hiff.mpr (by simpa using hcond)) hd
  · intro b t hmem
    unfold onBeginContact
    by_cases hg : (b.hasHit && decide (b.penetration ≤ 0)) = true
    · rw [if_pos hg]
    · rw [if_neg hg, hmem]
      simp

/-- A freshly fired Cannon-configured projectile with `penetration = 2`. -/
def demoBullet : Bullet :=
  { damage := 50, speed := 300, lifetime := 4, ownerTag := "Player"
    targetTags := ["Enemy"], penetration := 2, explosionRadius := 80
    isLaser := false, weaponType := .BULLET_TYPE_CANNON
    hasHit := false, hitCount := 0, hitTargets := [], active := true }

/-- Witness for C7: with `penetration = 2`, the projectile survives its
first distinct valid hit and is recycled exactly on the second; repeating
the first target is a no-op. -/
theorem claim_C7_penetration_destruction_witness :
    (onBeginContact demoBullet { id := 1, tag := "Enemy" }).hitCount = 1 ∧
      (onBeginContact demoBullet { id := 1, tag := "Enemy" }).active = true ∧
      onBeginContact (onBeginContact demoBullet { id := 1, tag := "Enemy" })
          { id := 1, tag := "Enemy" } =
        onBeginContact demoBullet { id := 1, tag := "Enemy" } ∧
      (onBeginContact (onBeginContact demoBullet { id := 1, tag := "Enemy" })
          { id := 2, tag := "Enemy" }).hitCount = 2 ∧
      (onBeginContact (onBeginContact demoBullet { id := 1, tag := "Enemy" })
          { id := 2, tag := "Enemy" }).active = false := by
  have h1 := claim_C7_penetration_destruction.1 demoBullet { id := 1, tag := "Enemy" }
    (by decide) (by decide) (by decide) (by decide)
  have hcnt1 : (onBeginContact demoBullet { id := 1, tag := "Enemy" }).hitCount = 1 := h1.1
  have hact1 : (onBeginContact demoBullet { id := 1, tag := "Enemy" }).active = true := by
    rcases Bool.eq_false_or_eq_true
        (onBeginContact demoBullet { id := 1, tag := "Enemy" }).active with ht | hf
    · exact ht
    · exact absurd (h1.2.mp hf) (by decide)
  have hrepeat := claim_C7_penetration_destruction.2
    (onBeginContact demoBullet { id := 1, tag := "Enemy" }) { id := 1, tag := "Enemy" }
    (by decide)
  have h2 := claim_C7_penetration_destruction.1
    (onBeginContact demoBullet { id := 1, tag := "Enemy" }) { id := 2, tag := "Enemy" }
    hact1 (by decide) (by decide) (by decide)
  refine ⟨hcnt1, hact1, hrepeat, ?_, ?_⟩
  · rw [h2.1, hcnt1]
  · refine h2.2.mpr ?_
    right
    rw [hcnt1]
    decide

/-! ### C8 — `reconfigureGrid` performs no validation -/

/-- Counterexample to C8: reconfiguring the 2×3 grid with `rows = 0` does
not fail and does not leave the grid unchanged — it applies the degenerate
configuration and rebuilds an empty lattice. -/
theorem claim_C8_counterexample :
    (reconfigureGrid demoGrid23 { rows := some 0 }).rows = 0 ∧
      (reconfigureGrid demoGrid23 { rows := some 0 }).grid.length = 0 ∧
      demoGrid23.rows = 2 ∧
      demoGrid23.grid.length = 2 := by
  refine ⟨?_, ?_, ?_, ?_⟩ <;> decide

/-- C8 (amended): `reconfigureGrid` validates nothing.  Every provided
field — rows, cols, cellWidth, cellHeight, startPosition, values `≤ 0`
included — is applied unconditionally, and the cell lattice is rebuilt from
scratch from the new dimensions: `rows.toNat` rows of `cols.toNat` freshly
created, unoccupied cells, hence an empty lattice whenever the new `rows`
is not positive.  No `InvalidConfig` failure path exists and nothing of the
old configuration or cell state survives a reconfiguration. -/
theorem claim_C8_amended_no_validation (g : GridManager) (config : GridConfigPatch) :
    (reconfigureGrid g config).rows = config.rows.getD g.rows ∧
      (reconfigureGrid g config).cols = config.cols.getD g.cols ∧
      (reconfigureGrid g config).cellWidth = config.cellWidth.getD g.cellWidth ∧
      (reconfigureGrid g config).cellHeight = config.cellHeight.getD g.cellHeight ∧
      (reconfigureGrid g config).startPosition =
        config.startPosition.getD g.startPosition ∧
      (reconfigureGrid g config).grid.length = (config.rows.getD g.rows).toNat ∧
      (∀ rowList ∈ (reconfigureGrid g config).grid,
          rowList.length = (config.cols.getD g.cols).toNat) ∧
      (∀ (i j : ℤ) (cell : GridCell),
          getCell (reconfigureGrid g config) i j = some cell →
            cell.occupied = false ∧ cell.occupant = none) ∧
      (config.rows.getD g.rows ≤ 0 → (reconfigureGrid g config).grid = []) := by
  have hre : reconfigureGrid g config = initializeGrid
      { g with
        rows := config.rows.getD g.rows
        cols := config.cols.getD g.cols
        cellWidth := config.cellWidth.getD g.cellWidth
        cellHeight := config.cellHeight.getD g.cellHeight
        startPosition := config.startPosition.getD g.startPosition } := rfl
  rw [hre]
  refine ⟨rfl, rfl, rfl, rfl, rfl, ?_, ?_, ?_, ?_⟩
  · simp [initializeGrid]
  · intro rowList hmem
    simp only [initializeGrid, List.mem_map] at hmem
    obtain ⟨a, -, rfl⟩ := hmem
    simp
  · intro i j cell hcell
    rw [getCell_initializeGrid hcell]
    unfold createGridCell
    obtain ⟨h1, h2⟩ := configureCellByType_occupancy _
    exact ⟨h1, h2⟩
  · intro hle
    simp only [initializeGrid]
    rw [Int.toNat_of_nonpos hle]
    rfl

/-- Witness for C8 (amended): a degenerate reconfiguration (`rows = 0`,
`cellWidth = -5`) is applied as given and empties the lattice, and a
benign one (`cols = 5`) rebuilds a fresh 2×5 lattice of unoccupied cells. -/
theorem claim_C8_amended_no_validation_witness :
    (reconfigureGrid demoGrid23 { rows := some 0, cellWidth := some (-5) }).rows = 0 ∧
      (reconfigureGrid demoGrid23 { rows := some 0, cellWidth := some (-5) }).cellWidth
        = -5 ∧
      (reconfigureGrid demoGrid23 { rows := some 0, cellWidth := some (-5) }).grid
        = [] ∧
      (reconfigureGrid demoGrid23 { cols := some 5 }).rows = 2 ∧
      (reconfigureGrid demoGrid23 { cols := some 5 }).cols = 5 ∧
      (reconfigureGrid demoGrid23 { cols := some 5 }).grid.length = 2 ∧
      (∀ rowList ∈ (reconfigureGrid demoGrid23 { cols := some 5 }).grid,
          rowList.length = 5) ∧
      (getCell (reconfigureGrid demoGrid23 { cols := some 5 }) 0 0).map
          (fun cl => (cl.occupied, cl.occupant)) = some (false, none) := by
  have h1 := claim_C8_amended_no_validation demoGrid23
    { rows := some 0, cellWidth := some (-5) }
  have h2 := claim_C8_amended_no_validation demoGrid23 { cols := some 5 }
  refine ⟨?_, ?_, h1.2.2.2.2.2.2.2.2 (by decide), ?_, ?_, ?_, ?_, ?_⟩
  · rw [h1.1]
    decide
  · rw [h1.2.2.1]
    decide
  · rw [h2.1]
    decide
  · rw [h2.2.1]
    decide
  · rw [h2.2.2.2.2.2.1]
    decide
  · intro rowList hmem
    rw [h2.2.2.2.2.2.2.1 rowList hmem]
    decide
  · cases hget : getCell (reconfigureGrid demoGrid23 { cols := some 5 }) 0 0 with
    | none =>
      have hs : (getCell (reconfigureGrid demoGrid23 { cols := some 5 }) 0 0).isSome
          = true := by decide
      rw [hget] at hs
      exact absurd hs (by simp)
    | some cell =>
      obtain ⟨ho1, ho2⟩ := h2.2.2.2.2.2.2.2.1 0 0 cell hget
      simp only [Option.map_some']
      rw [ho1, ho2]

/-! ### C9 — neighbor enumeration order -/

/-- Counterexample to C9: in the 8-direction query at the center of the 3×3
grid, the *first* returned neighbor is the diagonal `(0, 0)` (Manhattan
distance 2 from `(1, 1)`), so the four orthogonal neighbors do not precede
the diagonal ones. -/
theorem claim_C9_counterexample :
    ((getNeighborCells demoGrid33 1 1 true).map fun cl => cl.coordinate) =
      [{ row := 0, col := 0 }, { row := 0, col := 1 }, { row := 0, col := 2 },
        { row := 1, col := 0 }, { row := 1, col := 2 }, { row := 2, col := 0 },
        { row := 2, col := 1 }, { row := 2, col := 2 }] ∧
      heuristic { row := 0, col := 0 } { row := 1, col := 1 } = 2 := by
  constructor
  · decide
  · decide

/-- Executable well-formedness of the lattice: dimensions match and every
cell records its own coordinate.  It holds for every grid produced by
`initializeGrid` and is preserved by the mutation API. -/
def wellFormedGrid (g : GridManager) : Bool :=
  (g.grid.length == g.rows.toNat) &&
    (List.range g.grid.length).all fun i =>
      match g.grid.get? i with
      | none => false
      | some rowList =>
        (rowList.length == g.cols.toNat) &&
          (List.range rowList.length).all fun j =>
            match rowList.get? j with
            | none => false
            | some cell =>
              cell.coordinate == { row := Int.ofNat i, col := Int.ofNat j }

/-- On a well-formed grid, every valid coordinate holds a cell carrying
exactly that coordinate. -/
lemma wellFormed_getCell {g : GridManager} (h : wellFormedGrid g = true)
    {i j : ℤ} (hv : isValidCoordinate g i j = true) :
    ∃ cell, getCell g i j = some cell ∧ cell.coordinate = { row := i, col := j } := by
  obtain ⟨hi0, hir, hj0, hjc⟩ := (isValidCoordinate_iff g i j).mp hv
  unfold wellFormedGrid at h
  rw [Bool.and_eq_true, List.all_eq_true] at h
  obtain ⟨hlen, hall⟩ := h
  have hlen' : g.grid.length = g.rows.toNat := by simpa using hlen
  have hilt : i.toNat < g.grid.length := by omega
  have hrowmem : i.toNat ∈ List.range g.grid.length := List.mem_range.mpr hilt
  have hrow := hall _ hrowmem
  cases hgr : g.grid.get? i.toNat with
  | none => rw [hgr] at hrow; exact absurd hrow (by simp)
  | some rowList =>
    rw [hgr] at hrow
    rw [Bool.and_eq_true, List.all_eq_true] at hrow
    obtain ⟨hrlen, hrall⟩ := hrow
    have hrlen' : rowList.length = g.cols.toNat := by simpa using hrlen
    have hjlt : j.toNat < rowList.length := by omega
    have hcellmem : j.toNat ∈ List.range rowList.length := List.mem_range.mpr hjlt
    have hcell := hrall _ hcellmem
    cases hgc : rowList.get? j.toNat with
    | none => rw [hgc] at hcell; exact absurd hcell (by simp)
    | some cell =>
      rw [hgc] at hcell
      have hcoord : cell.coordinate =
          { row := Int.ofNat i.toNat, col := Int.ofNat j.toNat } := by
        simpa using hcell
      refine ⟨cell, ?_, ?_⟩
      · unfold getCell
        rw [if_pos hv, hgr]
        exact hgc
      · rw [hcoord]
        have h1 : Int.ofNat i.toNat = i := by
          rw [Int.ofNat_eq_coe]
          omega
        have h2 : Int.ofNat j.toNat = j := by
          rw [Int.ofNat_eq_coe]
          omega
        rw [h1, h2]

/-- C9 (amended): on a well-formed grid, `getNeighborCells` returns exactly
the in-bounds neighbors, in the order of the fixed direction list — which,
for 8-direction queries, enumerates offsets in row-major order with
diagonal and orthogonal neighbors interleaved (up-left diagonal first), not
with the orthogonal neighbors before the diagonal ones. -/
theorem claim_C9_amended_neighbor_order (g : GridManager)
    (h : wellFormedGrid g = true) (row col : ℤ) (includeDiagonal : Bool) :
    ((getNeighborCells g row col includeDiagonal).map fun cl => cl.coordinate) =
      (neighborDirections includeDiagonal).filterMap fun d =>
        if isValidCoordinate g (row + d.1) (col + d.2) then
          some { row := row + d.1, col := col + d.2 }
        else none := by
  unfold getNeighborCells
  rw [List.map_filterMap]
  apply List.filterMap_congr
  intro d _
  by_cases hv : isValidCoordinate g (row + d.1) (col + d.2) = true
  · obtain ⟨cell, hcell, hcoord⟩ := wellFormed_getCell h hv
    rw [hcell, if_pos hv]
    simp [hcoord]
  · rw [if_neg hv]
    unfold getCell
    rw [if_neg hv]
    rfl

/-- Witness for C9 (amended) at the center of the 3×3 grid. -/
theorem claim_C9_amended_neighbor_order_witness :
    wellFormedGrid demoGrid33 = true ∧
      ((getNeighborCells demoGrid33 1 1 true).map fun cl => cl.coordinate) =
        ((neighborDirections true).filterMap fun d =>
          if isValidCoordinate demoGrid33 (1 + d.1) (1 + d.2) then
            some { row := 1 + d.1, col := 1 + d.2 }
          else none) :=
  ⟨by decide, claim_C9_amended_neighbor_order demoGrid33 (by decide) 1 1 true⟩

end BirdWar
